import Mathlib

set_option maxHeartbeats 1000000
set_option maxRecDepth 4000
set_option linter.unusedVariables false

/- Shallow embedding of the response-reconciliation engine in src/app.py.
   JSON documents (the values produced by json.loads and passed between the
   FastAPI handlers) are modelled by the inductive JVal below; Python dicts
   become association lists (Python dicts have unique keys, and lookups read
   the binding of the key), Python None becomes JVal.null, and numbers are
   rationals (covering both int and float payload values). -/

inductive JVal where
| null : JVal
| bool : Bool → JVal
| num : Rat → JVal
| str : String → JVal
| arr : List JVal → JVal
| obj : List (String × JVal) → JVal

mutual
/-- Structural equality test for JSON values. -/
def JVal.beq : JVal → JVal → Bool
| .null, .null => true
| .bool a, .bool b => decide (a = b)
| .num a, .num b => decide (a = b)
| .str a, .str b => decide (a = b)
| .arr a, .arr b => beqItems a b
| .obj a, .obj b => beqFields a b
| _, _ => false

/-- Equality test for JSON arrays, element by element. -/
def beqItems : List JVal → List JVal → Bool
| [], [] => true
| a :: as, b :: bs => JVal.beq a b && beqItems as bs
| _, _ => false

/-- Equality test for JSON objects, binding by binding. -/
def beqFields : List (String × JVal) → List (String × JVal) → Bool
| [], [] => true
| (k, v) :: as, (l, w) :: bs => decide (k = l) && JVal.beq v w && beqFields as bs
| _, _ => false
end

mutual
def JVal.eq_of_beq : (a b : JVal) → JVal.beq a b = true → a = b
| .null, .null, _ => rfl
| .bool _, .bool _, h => congrArg JVal.bool (of_decide_eq_true h)
| .num _, .num _, h => congrArg JVal.num (of_decide_eq_true h)
| .str _, .str _, h => congrArg JVal.str (of_decide_eq_true h)
| .arr _, .arr _, h => congrArg JVal.arr (eqItems_of_beq _ _ h)
| .obj _, .obj _, h => congrArg JVal.obj (eqFields_of_beq _ _ h)
| .null, .bool _, h => nomatch h
| .null, .num _, h => nomatch h
| .null, .str _, h => nomatch h
| .null, .arr _, h => nomatch h
| .null, .obj _, h => nomatch h
| .bool _, .null, h => nomatch h
| .bool _, .num _, h => nomatch h
| .bool _, .str _, h => nomatch h
| .bool _, .arr _, h => nomatch h
| .bool _, .obj _, h => nomatch h
| .num _, .null, h => nomatch h
| .num _, .bool _, h => nomatch h
| .num _, .str _, h => nomatch h
| .num _, .arr _, h => nomatch h
| .num _, .obj _, h => nomatch h
| .str _, .null, h => nomatch h
| .str _, .bool _, h => nomatch h
| .str _, .num _, h => nomatch h
| .str _, .arr _, h => nomatch h
| .str _, .obj _, h => nomatch h
| .arr _, .null, h => nomatch h
| .arr _, .bool _, h => nomatch h
| .arr _, .num _, h => nomatch h
| .arr _, .str _, h => nomatch h
| .arr _, .obj _, h => nomatch h
| .obj _, .null, h => nomatch h
| .obj _, .bool _, h => nomatch h
| .obj _, .num _, h => nomatch h
| .obj _, .str _, h => nomatch h
| .obj _, .arr _, h => nomatch h

def eqItems_of_beq : (a b : List JVal) → beqItems a b = true → a = b
| [], [], _ => rfl
| x :: xs, y :: ys, h => by
  have h' := h
  simp only [beqItems, Bool.and_eq_true] at h'
  exact congrArg₂ List.cons (JVal.eq_of_beq x y h'.1) (eqItems_of_beq xs ys h'.2)
| [], _ :: _, h => nomatch h
| _ :: _, [], h => nomatch h

def eqFields_of_beq : (a b : List (String × JVal)) → beqFields a b = true → a = b
| [], [], _ => rfl
| (k, v) :: xs, (l, w) :: ys, h => by
  have h' := h
  simp only [beqFields, Bool.and_eq_true, decide_eq_true_eq] at h'
  have hkv : (k, v) = (l, w) := by
    rw [h'.1.1]
    exact congrArg (Prod.mk l) (JVal.eq_of_beq v w h'.1.2)
  exact congrArg₂ List.cons hkv (eqFields_of_beq xs ys h'.2)
| [], _ :: _, h => nomatch h
| _ :: _, [], h => nomatch h
end

mutual
def JVal.beq_refl : (a : JVal) → JVal.beq a a = true
| .null => rfl
| .bool _ => by simp [JVal.beq]
| .num _ => by simp [JVal.beq]
| .str _ => by simp [JVal.beq]
| .arr xs => beqItems_refl xs
| .obj fs => beqFields_refl fs

def beqItems_refl : (a : List JVal) → beqItems a a = true
| [] => rfl
| x :: xs => by
  simp only [beqItems, Bool.and_eq_true]
  exact ⟨JVal.beq_refl x, beqItems_refl xs⟩

def beqFields_refl : (a : List (String × JVal)) → beqFields a a = true
| [] => rfl
| (k, v) :: xs => by
  simp only [beqFields, Bool.and_eq_true, decide_eq_true_eq]
  exact ⟨⟨trivial, JVal.beq_refl v⟩, beqFields_refl xs⟩
end

instance : DecidableEq JVal := fun a b =>
  decidable_of_iff (JVal.beq a b = true)
    ⟨JVal.eq_of_beq a b, fun h => h ▸ JVal.beq_refl a⟩

/-- Python dict get: first binding of the key, if any (dicts hold each key once). -/
def getField (fs : List (String × JVal)) (k : String) : Option JVal :=
  (fs.find? (fun p => p.1 == k)).map (fun p => p.2)

/-- Python dict.get with default None: missing key yields null. -/
def getOr (fs : List (String × JVal)) (k : String) : JVal :=
  (getField fs k).getD JVal.null

/-- Python truthiness of a JSON value (None, False, 0, empty string/list/dict are falsy). -/
def JVal.truthy : JVal → Bool
| .null => false
| .bool b => b
| .num q => decide (q ≠ 0)
| .str s => decide (s ≠ "")
| .arr xs => !xs.isEmpty
| .obj fs => !fs.isEmpty

/-- Python x or y: first operand if truthy, else second. -/
def pyOr (a b : JVal) : JVal := if a.truthy then a else b

/-- ASCII lowering of one character, as str.lower acts on the tokens this
program exchanges. -/
def lowerChar (c : Char) : Char :=
  if 65 ≤ c.toNat ∧ c.toNat ≤ 90 then Char.ofNat (c.toNat + 32) else c

/-- Embedding of str.lower on the status/role/type tokens. -/
def pyLower (s : String) : String := String.mk (s.data.map lowerChar)

/-- Whitespace recognized by str.strip. -/
def isSpaceChar (c : Char) : Bool :=
  decide (c = ' ') || decide (c = '\t') || decide (c = '\n') || decide (c = '\r')
    || decide (c = Char.ofNat 11) || decide (c = Char.ofNat 12)

/-- Embedding of str.strip. -/
def pyStrip (s : String) : String :=
  String.mk (((s.data.dropWhile isSpaceChar).reverse.dropWhile isSpaceChar).reverse)

/-- Embedding of the helper _has_text_payload inside _find_analysis_like_dict. -/
def hasTextPayload : JVal → Bool
| .str _ => true
| .obj fs =>
  match getField fs "text" with
  | some (.str t) => pyStrip t != ""
  | _ => false
| _ => false

/-- The shape predicate of _find_analysis_like_dict: a dict with a graph
holding nodes/edges lists, a text-bearing analysis_summary, and a dict
edited_protein. -/
def isAnalysisLike : JVal → Bool
| .obj fs =>
  (match getField fs "graph" with
   | some (.obj g) =>
     (match getField g "nodes" with | some (.arr _) => true | _ => false)
     && (match getField g "edges" with | some (.arr _) => true | _ => false)
   | _ => false)
  && hasTextPayload (getOr fs "analysis_summary")
  && (match getField fs "edited_protein" with | some (.obj _) => true | _ => false)
| _ => false

mutual
/-- Embedding of _find_analysis_like_dict: depth-first search for the first
dict satisfying the shape predicate, recursing into dict values and list items. -/
def findAnalysisLikeDict : JVal → Option JVal
| .obj fs =>
  if isAnalysisLike (.obj fs) then some (.obj fs) else findInFields fs
| .arr xs => findInItems xs
| _ => none

/-- Search the values of a dict, in binding order, as the source for-loop does. -/
def findInFields : List (String × JVal) → Option JVal
| [] => none
| (_, v) :: rest =>
  match findAnalysisLikeDict v with
  | some r => some r
  | none => findInFields rest

/-- Search the items of a list, in order, as the source for-loop does. -/
def findInItems : List JVal → Option JVal
| [] => none
| v :: rest =>
  match findAnalysisLikeDict v with
  | some r => some r
  | none => findInItems rest
end

/-- Skip JSON whitespace, as the stdlib parser does. -/
def skipWs : List Char → List Char
| c :: cs => if c = ' ' ∨ c = '\t' ∨ c = '\n' ∨ c = '\r' then skipWs cs else c :: cs
| [] => []

/-- JSON string escapes handled by the embedded parser (the unicode escape of
the stdlib parser is outside the fragment this program exchanges). -/
def escChar : Char → Option Char
| '\x22' => some '\x22'
| '\\' => some '\\'
| '/' => some '/'
| 'n' => some '\n'
| 't' => some '\t'
| 'r' => some '\r'
| 'b' => some (Char.ofNat 8)
| 'f' => some (Char.ofNat 12)
| _ => none

/-- Parse the body of a JSON string after its opening quote. -/
def parseStringBody : List Char → Option (String × List Char)
| [] => none
| '\x22' :: rest => some ("", rest)
| '\\' :: e :: rest =>
  match escChar e with
  | some c => (parseStringBody rest).map (fun p => (String.singleton c ++ p.1, p.2))
  | none => none
| '\\' :: [] => none
| c :: rest => (parseStringBody rest).map (fun p => (String.singleton c ++ p.1, p.2))

/-- Accumulate decimal digits, returning value, digit count and the rest. -/
def parseDigitsAux : List Char → Nat → Nat → (Nat × Nat × List Char)
| c :: cs, acc, n =>
  if c.isDigit then parseDigitsAux cs (acc * 10 + (c.toNat - 48)) (n + 1)
  else (acc, n, c :: cs)
| [], acc, n => (acc, n, [])

/-- Parse a JSON number (optional sign, integer part, optional fraction). -/
def parseNumber (cs : List Char) : Option (Rat × List Char) :=
  let signAndRest : Bool × List Char :=
    match cs with
    | '-' :: rest => (true, rest)
    | _ => (false, cs)
  let ip := parseDigitsAux signAndRest.2 0 0
  if ip.2.1 = 0 then none
  else
    match ip.2.2 with
    | '.' :: cs3 =>
      let fp := parseDigitsAux cs3 0 0
      if fp.2.1 = 0 then none
      else
        let mag : Rat := (ip.1 : Rat) + (fp.1 : Rat) / ((10 : Rat) ^ fp.2.1)
        some ((if signAndRest.1 then -mag else mag), fp.2.2)
    | rest => some ((if signAndRest.1 then -(ip.1 : Rat) else (ip.1 : Rat)), rest)

mutual
/-- Fuel-indexed JSON value parser; the wrapper supplies ample fuel, so on the
fragment it covers it behaves as the stdlib json.loads the source calls. -/
def parseVal : Nat → List Char → Option (JVal × List Char)
| 0, _ => none
| fuel + 1, cs =>
  match skipWs cs with
  | 'n' :: 'u' :: 'l' :: 'l' :: rest => some (.null, rest)
  | 't' :: 'r' :: 'u' :: 'e' :: rest => some (.bool true, rest)
  | 'f' :: 'a' :: 'l' :: 's' :: 'e' :: rest => some (.bool false, rest)
  | '\x22' :: rest => (parseStringBody rest).map (fun p => (.str p.1, p.2))
  | '[' :: rest =>
    (match skipWs rest with
     | ']' :: rest2 => some (.arr [], rest2)
     | rest2 =>
       match parseVal fuel rest2 with
       | some (v, rest3) => parseArrRest fuel [v] rest3
       | none => none)
  | '\x7b' :: rest =>
    (match skipWs rest with
     | '\x7d' :: rest2 => some (.obj [], rest2)
     | rest2 => parseObjRest fuel [] rest2)
  | rest => (parseNumber rest).map (fun p => (.num p.1, p.2))

/-- Parse the continuation of a JSON array after its first element. -/
def parseArrRest : Nat → List JVal → List Char → Option (JVal × List Char)
| 0, _, _ => none
| fuel + 1, acc, cs =>
  match skipWs cs with
  | ',' :: rest =>
    (match parseVal fuel rest with
     | some (v, rest2) => parseArrRest fuel (acc ++ [v]) rest2
     | none => none)
  | ']' :: rest => some (.arr acc, rest)
  | _ => none

/-- Parse the members of a JSON object (after any leading whitespace). -/
def parseObjRest : Nat → List (String × JVal) → List Char → Option (JVal × List Char)
| 0, _, _ => none
| fuel + 1, acc, cs =>
  match skipWs cs with
  | '\x22' :: rest =>
    (match parseStringBody rest with
     | some (k, rest2) =>
       (match skipWs rest2 with
        | ':' :: rest3 =>
          (match parseVal fuel rest3 with
           | some (v, rest4) =>
             (match skipWs rest4 with
              | ',' :: rest5 => parseObjRest fuel (acc ++ [(k, v)]) rest5
              | '\x7d' :: rest5 => some (.obj (acc ++ [(k, v)]), rest5)
              | _ => none)
           | none => none)
        | _ => none)
     | none => none)
  | _ => none
end

/-- Embedding of json.loads: parse the whole string, or fail like the raised
exception the source swallows. Every parser call consumes at least one input
character before the fuel next decreases, so this fuel never runs out. -/
def jsonLoads (s : String) : Option JVal :=
  match parseVal (s.length + 8) s.data with
  | some (v, rest) => if skipWs rest = [] then some v else none
  | none => none


/-- Decimal rendering used by the Python repr fallback below. -/
def ratReprStr (q : Rat) : String :=
  if q.den = 1 then toString q.num else toString q.num ++ "/" ++ toString q.den

mutual
/-- Python repr of a JSON value. The source only applies str() to status,
role, and message-type tokens, which are strings or absent in the exchanged
payloads; the non-string shapes follow the repr layout. -/
def pyRepr : JVal → String
| .null => "None"
| .bool true => "True"
| .bool false => "False"
| .num q => ratReprStr q
| .str s => "\x27" ++ s ++ "\x27"
| .arr xs => "[" ++ pyReprItems xs ++ "]"
| .obj fs => "\x7b" ++ pyReprFields fs ++ "\x7d"

/-- Comma-joined reprs of list items. -/
def pyReprItems : List JVal → String
| [] => ""
| [x] => pyRepr x
| x :: rest => pyRepr x ++ ", " ++ pyReprItems rest

/-- Comma-joined reprs of dict bindings. -/
def pyReprFields : List (String × JVal) → String
| [] => ""
| [(k, v)] => "\x27" ++ k ++ "\x27: " ++ pyRepr v
| (k, v) :: rest => "\x27" ++ k ++ "\x27: " ++ pyRepr v ++ ", " ++ pyReprFields rest
end

/-- Python str(): identity on strings, repr layout otherwise. -/
def pyStr : JVal → String
| .str s => s
| v => pyRepr v

/-- Python value returned from a function, as seen by an is-None check:
returning None is the empty option. -/
def pyRet : JVal → Option JVal
| .null => none
| v => some v

/-- One explicit JSON-carrying key attempt on a content block: a dict value is
returned as-is; a string value is parsed and the parse result returned
verbatim (even a parsed null, which is the Python None return); a parse
failure falls through to the next candidate. -/
def tryJsonKey (bs : List (String × JVal)) (k : String) : Option (Option JVal) :=
  match getField bs k with
  | some (.obj o) => some (some (.obj o))
  | some (.str s) =>
    (match jsonLoads s with
     | some w => some (pyRet w)
     | none => none)
  | _ => none

/-- The MIME-typed block attempt: on a JSON MIME type, take the first truthy
of text/value/content and, when it is a string, return its parse result. -/
def tryMimeBlock (bs : List (String × JVal)) : Option (Option JVal) :=
  if getField bs "mime_type" = some (.str "application/json")
      ∨ getField bs "mime_type" = some (.str "text/json") then
    match pyOr (getOr bs "text") (pyOr (getOr bs "value") (getOr bs "content")) with
    | .str s =>
      (match jsonLoads s with
       | some w => some (pyRet w)
       | none => none)
    | _ => none
  else none

/-- The nested data/value/content attempt: search a dict value (or a string
value parsed to a dict) with the shape predicate; only a hit returns. -/
def tryNestedKey (bs : List (String × JVal)) (k : String) : Option (Option JVal) :=
  match getField bs k with
  | some (.obj o) => (findAnalysisLikeDict (.obj o)).map some
  | some (.str s) =>
    (match jsonLoads s with
     | some (.obj o) => (findAnalysisLikeDict (.obj o)).map some
     | _ => none)
  | _ => none

/-- All strategies the walk applies to one block of a content list. -/
def tryBlock (b : JVal) : Option (Option JVal) :=
  match b with
  | .obj bs =>
    tryJsonKey bs "json" <|> tryJsonKey bs "json_object" <|> tryMimeBlock bs
      <|> tryNestedKey bs "data" <|> tryNestedKey bs "value" <|> tryNestedKey bs "content"
  | _ => none

/-- The strategies applied when a message content is a single dict. -/
def tryContentDict (cs : List (String × JVal)) : Option (Option JVal) :=
  tryNestedKey cs "json" <|> tryNestedKey cs "json_object" <|> tryNestedKey cs "data"
    <|> tryNestedKey cs "value" <|> tryNestedKey cs "content"

/-- First hit of a sequence of attempts (the for-loops with early return). -/
def firstHit : List (Option (Option JVal)) → Option (Option JVal)
| [] => none
| o :: rest => o <|> firstHit rest

/-- The assistant-likeness filter of the message walk: a message-type token
containing assistant/final/output, or an assistant-like role token. -/
def isAssistantLike (ms : List (String × JVal)) : Bool :=
  let mtype := pyLower (pyStr (pyOr (getOr ms "message_type") (.str "")))
  let role :=
    pyLower (pyStr (pyOr (getOr ms "role")
      (pyOr (getOr ms "speaker") (pyOr (getOr ms "author") (.str "")))))
  (decide (mtype ≠ "")
      && (decide ("assistant".data <:+: mtype.data)
          || decide ("final".data <:+: mtype.data)
          || decide ("output".data <:+: mtype.data)))
    || (role == "assistant" || role == "agent" || role == "model")

/-- The per-message step of the walk: block list, content dict, or a raw
string content parsed as JSON and returned without any shape check. -/
def tryMessage (m : JVal) : Option (Option JVal) :=
  match m with
  | .obj ms =>
    if isAssistantLike ms then
      match getField ms "content" with
      | some (.arr blocks) => firstHit (blocks.map tryBlock)
      | some (.obj cs) => tryContentDict cs
      | some (.str s) =>
        (match jsonLoads s with
         | some (.obj o) => some (some (.obj o))
         | _ => none)
      | _ => none
    else none
  | _ => none

/-- Embedding of _extract_json_from_messages: walk the messages newest to
oldest; a Python return of None is the outer none; only falling off the walk
reaches the trailing generic search of the whole envelope. -/
def extractJsonFromMessages (resp : JVal) : Option JVal :=
  match resp with
  | .obj fs =>
    (match getField fs "messages" with
     | some (.arr msgs) =>
       (match firstHit (msgs.reverse.map tryMessage) with
        | some r => r
        | none => findAnalysisLikeDict resp)
     | _ => none)
  | _ => none

/-- The two-step extraction letta_analyze performs on an envelope:
_extract_json_from_messages first, then _find_analysis_like_dict when the
former came back None. -/
def extractAnalysis (resp : JVal) : Option JVal :=
  match extractJsonFromMessages resp with
  | some v => some v
  | none => findAnalysisLikeDict resp

/-- The three permitted literals of the GraphNode type field. -/
inductive NodeType where
| protein
| drug
| entity

/-- Domain model of TextWithSources. -/
structure TextWithSources where
  text : String
  source_ids : Option (List String)

/-- Domain model of GraphNode. -/
structure GraphNode where
  id : String
  label : String
  type : NodeType
  isEdited : Bool
  notes : Option TextWithSources
  relationship_to_edited : Option TextWithSources
  role_summary : Option TextWithSources
  source_ids : Option (List String)

/-- Domain model of GraphEdge. -/
structure GraphEdge where
  source : String
  target : String
  interaction : String
  mechanism : Option String

/-- Domain model of InteractionGraph. -/
structure InteractionGraph where
  nodes : List GraphNode
  edges : List GraphEdge

/-- Domain model of EditedProtein. -/
structure EditedProtein where
  id : String
  label : String
  description : Option TextWithSources
  mutations : List TextWithSources
  confidence : Option Rat

/-- Domain model of NotebookAnalysisResult. -/
structure NotebookAnalysisResult where
  analysis_summary : TextWithSources
  edited_protein : EditedProtein
  graph : InteractionGraph

/-- The dangling-edge scan of validate_graph: every edge whose source or
target is not a known node id, in edge order, as (source, target) pairs. -/
def InteractionGraph.danglingEdges (g : InteractionGraph) : List (String × String) :=
  let known := g.nodes.map GraphNode.id
  (g.edges.filter (fun e => !(known.contains e.source) || !(known.contains e.target))).map
    (fun e => (e.source, e.target))

/-- Embedding of InteractionGraph.validate_graph (the mode-after model
validator): node-count bound first, then id uniqueness (the source compares
len(node_ids) with len(set(node_ids)), equivalent to the Nodup test), then
the dangling-edge report joining every offending edge as src->tgt. -/
def InteractionGraph.validate_graph (g : InteractionGraph) : Except String InteractionGraph :=
  let node_ids := g.nodes.map GraphNode.id
  if node_ids.length > 10 then .error "Graph cannot contain more than 10 nodes"
  else if ¬ node_ids.Nodup then .error "Graph nodes must have unique ids"
  else if ¬ g.danglingEdges.isEmpty then
    .error ("Edges reference unknown nodes: "
      ++ String.intercalate ", " (g.danglingEdges.map (fun p => p.1 ++ "->" ++ p.2)))
  else .ok g

/-- Required string field of a pydantic model (the exact pydantic error text
is abstracted to the field name; no claim depends on field-level wording). -/
def reqStr (fs : List (String × JVal)) (k : String) : Except String String :=
  match getField fs k with
  | some (.str s) => .ok s
  | some _ => .error (k ++ ": not a string")
  | none => .error (k ++ ": field required")

/-- Optional plain string field. -/
def optStr (fs : List (String × JVal)) (k : String) : Except String (Option String) :=
  match getField fs k with
  | none => .ok none
  | some .null => .ok none
  | some (.str s) => .ok (some s)
  | some _ => .error (k ++ ": not a string")

/-- Item check of a string list field. -/
def asStr : JVal → Except String String
| .str s => .ok s
| _ => .error "source_ids: item not a string"

/-- Optional list-of-strings field (source_ids). -/
def optStrList (v : Option JVal) : Except String (Option (List String)) :=
  match v with
  | none => .ok none
  | some .null => .ok none
  | some (.arr xs) => (xs.mapM asStr).map some
  | some _ => .error "source_ids: not a list"

/-- Validation of a TextWithSources payload (extra keys ignored by reading
only the declared fields, as ConfigDict(extra="ignore") does). -/
def validateTextWithSources : JVal → Except String TextWithSources
| .obj fs => do
  let text ← reqStr fs "text"
  let sids ← optStrList (getField fs "source_ids")
  pure ⟨text, sids⟩
| _ => .error "TextWithSources: input is not a dict"

/-- Embedding of GraphNode._normalize_optional_text, the mode-before field
validator: None and dicts pass through, a bare string is wrapped as a text
dict, any other type raises. (The isinstance-TextWithSources branch is in
the CoerceInput wrapper below, since a JSON document never carries one.) -/
def normalizeOptionalText : JVal → Except String JVal
| .null => .ok .null
| .str s => .ok (.obj [("text", .str s)])
| .obj fs => .ok (.obj fs)
| _ => .error "Expected string, dict, or TextWithSources-compatible value"

/-- An optional AnnotatedText field of GraphNode: absent stays None,
otherwise the normalizer runs and its dict output is validated. -/
def optNormalizedText (v : Option JVal) : Except String (Option TextWithSources) :=
  match v with
  | none => .ok none
  | some w => do
    let n ← normalizeOptionalText w
    match n with
    | .null => pure none
    | w2 => (validateTextWithSources w2).map some

/-- The Literal type field of GraphNode. -/
def validateNodeType (v : Option JVal) : Except String NodeType :=
  match v with
  | some (.str "protein") => .ok .protein
  | some (.str "drug") => .ok .drug
  | some (.str "entity") => .ok .entity
  | some _ => .error "type: not one of the permitted literals"
  | none => .error "type: field required"

/-- Validation of a GraphNode payload. -/
def validateGraphNode : JVal → Except String GraphNode
| .obj fs => do
  let id ← reqStr fs "id"
  let label ← reqStr fs "label"
  let ty ← validateNodeType (getField fs "type")
  let isEdited ← (match getField fs "isEdited" with
    | none => Except.ok false
    | some (.bool b) => Except.ok b
    | some _ => Except.error "isEdited: not a bool")
  let notes ← optNormalizedText (getField fs "notes")
  let rel ← optNormalizedText (getField fs "relationship_to_edited")
  let role ← optNormalizedText (getField fs "role_summary")
  let sids ← optStrList (getField fs "source_ids")
  pure ⟨id, label, ty, isEdited, notes, rel, role, sids⟩
| _ => .error "GraphNode: input is not a dict"

/-- Validation of a GraphEdge payload. -/
def validateGraphEdge : JVal → Except String GraphEdge
| .obj fs => do
  let s ← reqStr fs "source"
  let t ← reqStr fs "target"
  let i ← reqStr fs "interaction"
  let m ← optStr fs "mechanism"
  pure ⟨s, t, i, m⟩
| _ => .error "GraphEdge: input is not a dict"

/-- Validation of an InteractionGraph payload: the node and edge lists
(default empty when absent), then the validate_graph model validator. -/
def validateInteractionGraph : JVal → Except String InteractionGraph
| .obj fs => do
  let nodes ← (match getField fs "nodes" with
    | none => Except.ok []
    | some (.arr xs) => xs.mapM validateGraphNode
    | some _ => Except.error "nodes: not a list")
  let edges ← (match getField fs "edges" with
    | none => Except.ok []
    | some (.arr xs) => xs.mapM validateGraphEdge
    | some _ => Except.error "edges: not a list")
  InteractionGraph.validate_graph ⟨nodes, edges⟩
| _ => .error "InteractionGraph: input is not a dict"

/-- Validation of an EditedProtein payload (description has no normalizer,
so only a dict is accepted; confidence is bounded to the unit interval). -/
def validateEditedProtein : JVal → Except String EditedProtein
| .obj fs => do
  let id ← reqStr fs "id"
  let label ← reqStr fs "label"
  let desc ← (match getField fs "description" with
    | none => Except.ok none
    | some .null => Except.ok none
    | some (.obj o) => (validateTextWithSources (.obj o)).map some
    | some _ => Except.error "description: not a TextWithSources dict")
  let muts ← (match getField fs "mutations" with
    | none => Except.ok []
    | some (.arr xs) => xs.mapM validateTextWithSources
    | some _ => Except.error "mutations: not a list")
  let conf ← (match getField fs "confidence" with
    | none => Except.ok none
    | some .null => Except.ok none
    | some (.num q) =>
      if 0 ≤ q ∧ q ≤ 1 then Except.ok (some q)
      else Except.error "confidence: out of range"
    | some _ => Except.error "confidence: not a number")
  pure ⟨id, label, desc, muts, conf⟩
| _ => .error "EditedProtein: input is not a dict"

/-- Validation of the root NotebookAnalysisResult payload. -/
def validateNotebookAnalysisResult : JVal → Except String NotebookAnalysisResult
| .obj fs => do
  let s ← (match getField fs "analysis_summary" with
    | some v => validateTextWithSources v
    | none => Except.error "analysis_summary: field required")
  let ep ← (match getField fs "edited_protein" with
    | some v => validateEditedProtein v
    | none => Except.error "edited_protein: field required")
  let g ← (match getField fs "graph" with
    | some v => validateInteractionGraph v
    | none => Except.error "graph: field required")
  pure ⟨s, ep, g⟩
| _ => .error "NotebookAnalysisResult: input is not a dict"

/-- model_dump of an optional string list. -/
def dumpOptStrList : Option (List String) → JVal
| none => .null
| some xs => .arr (xs.map JVal.str)

/-- model_dump of TextWithSources. -/
def TextWithSources.model_dump (t : TextWithSources) : JVal :=
  .obj [("text", .str t.text), ("source_ids", dumpOptStrList t.source_ids)]

/-- model_dump of an optional TextWithSources. -/
def dumpOptTWS : Option TextWithSources → JVal
| none => .null
| some t => t.model_dump

/-- model_dump of the node type literal. -/
def NodeType.model_dump : NodeType → JVal
| .protein => .str "protein"
| .drug => .str "drug"
| .entity => .str "entity"

/-- model_dump of GraphNode. -/
def GraphNode.model_dump (n : GraphNode) : JVal :=
  .obj [("id", .str n.id), ("label", .str n.label), ("type", n.type.model_dump),
        ("isEdited", .bool n.isEdited), ("notes", dumpOptTWS n.notes),
        ("relationship_to_edited", dumpOptTWS n.relationship_to_edited),
        ("role_summary", dumpOptTWS n.role_summary),
        ("source_ids", dumpOptStrList n.source_ids)]

/-- model_dump of GraphEdge. -/
def GraphEdge.model_dump (e : GraphEdge) : JVal :=
  .obj [("source", .str e.source), ("target", .str e.target),
        ("interaction", .str e.interaction),
        ("mechanism", match e.mechanism with | none => JVal.null | some m => JVal.str m)]

/-- model_dump of InteractionGraph. -/
def InteractionGraph.model_dump (g : InteractionGraph) : JVal :=
  .obj [("nodes", .arr (g.nodes.map GraphNode.model_dump)),
        ("edges", .arr (g.edges.map GraphEdge.model_dump))]

/-- model_dump of EditedProtein. -/
def EditedProtein.model_dump (p : EditedProtein) : JVal :=
  .obj [("id", .str p.id), ("label", .str p.label),
        ("description", dumpOptTWS p.description),
        ("mutations", .arr (p.mutations.map TextWithSources.model_dump)),
        ("confidence", match p.confidence with | none => JVal.null | some q => JVal.num q)]

/-- model_dump of NotebookAnalysisResult. -/
def NotebookAnalysisResult.model_dump (r : NotebookAnalysisResult) : JVal :=
  .obj [("analysis_summary", r.analysis_summary.model_dump),
        ("edited_protein", r.edited_protein.model_dump),
        ("graph", r.graph.model_dump)]

/-- Embedding of _store_analysis_result on the module-global slot: the new
result replaces whatever was there; the source tag is only logged, so the
slot keeps no history and no provenance. -/
def storeAnalysisResult (st : Option NotebookAnalysisResult)
    (result : NotebookAnalysisResult) (source : String) : Option NotebookAnalysisResult :=
  some result

/-- Embedding of GET /api/analysis/result: 404 before any successful write,
otherwise the dump of the stored result. -/
def getAnalysisResult (st : Option NotebookAnalysisResult) : Except (Nat × String) JVal :=
  match st with
  | none => .error (404, "No analysis available")
  | some r => .ok r.model_dump

/-- A sequence of successful stores applied to the empty initial slot. -/
def runStores (rs : List NotebookAnalysisResult) : Option NotebookAnalysisResult :=
  rs.foldl (fun st r => storeAnalysisResult st r "api.analysis.result") none

/-- A value arriving at an AnnotatedText-typed field: a JSON value or an
already constructed TextWithSources instance (the isinstance branch of the
normalizer). -/
inductive CoerceInput where
| tws : TextWithSources → CoerceInput
| jv : JVal → CoerceInput

/-- The full field coercion on GraphNode text fields: the mode-before
normalizer followed by the TextWithSources validation pydantic performs. -/
def coerceAnnotatedText : CoerceInput → Except String (Option TextWithSources)
| .tws t => .ok (some t)
| .jv .null => .ok none
| .jv (.str s) => (validateTextWithSources (.obj [("text", .str s)])).map some
| .jv (.obj fs) => (validateTextWithSources (.obj fs)).map some
| .jv _ => .error "Expected string, dict, or TextWithSources-compatible value"

/-- Re-inject a coercion output as a fresh input (None or a model instance). -/
def reinject : Option TextWithSources → CoerceInput
| none => .jv .null
| some t => .tws t

/-- The state token of a run-status payload: the truthy-or of state and
status when the payload is a dict, lowered when a string. -/
def runStateVal : JVal → JVal
| .obj fs => pyOr (getOr fs "state") (getOr fs "status")
| _ => .null

/-- Lowered state string, when the recovered state is a string at all. -/
def stateToken (d : JVal) : Option String :=
  match runStateVal d with
  | .str s => some (pyLower s)
  | _ => none

/-- Membership of the completed-token set of the poller. -/
def isCompletedState (d : JVal) : Bool :=
  match stateToken d with
  | some s => s == "completed" || s == "finished" || s == "succeeded"
  | none => false

/-- Membership of the failed-token set of the poller. -/
def isFailedState (d : JVal) : Bool :=
  match stateToken d with
  | some s => s == "failed" || s == "error"
  | none => false

/-- Outcome of the polling while-loop of letta_analyze. -/
inductive PollOutcome where
| completed : Option JVal → PollOutcome
| failed : PollOutcome
| timedOut : PollOutcome

/-- One fuel-indexed unrolling of the polling while-loop. The wrapper below
supplies fuel deadline - now, which bounds the iteration count because every
non-terminal iteration sleeps the 3-second interval; by the time the fuel is
exhausted the wall clock has passed the deadline, so the base case is the
timed-out exit of the while condition. -/
def pollLoopAux (obs : Nat → Option JVal) (msgs : JVal) (deadline : Nat) :
    Nat → Nat → Nat → PollOutcome × Nat
| 0, _, _ => (.timedOut, 0)
| fuel + 1, now, i =>
  if now < deadline then
    match obs i with
    | none => pollLoopAux obs msgs deadline fuel (now + 3) (i + 1)
    | some d =>
      if isCompletedState d then (.completed (extractAnalysis msgs), 1)
      else if isFailedState d then (.failed, 0)
      else pollLoopAux obs msgs deadline fuel (now + 3) (i + 1)
  else (.timedOut, 0)

/-- The polling while-loop of letta_analyze. obs i is the i-th status
request: none models a transient fetch/parse failure (logged, slept
through), some d the parsed body. Wall-clock time advances by the 3-second
poll interval on each non-terminal iteration; msgs is the payload the
run-messages endpoint serves once the run completes (its fetch is modelled
as succeeding). The second component counts message-fetch requests, which
the source performs only in the completed branch. -/
def pollLoop (obs : Nat → Option JVal) (msgs : JVal) (deadline now i : Nat) :
    PollOutcome × Nat :=
  pollLoopAux obs msgs deadline (deadline - now) now i

/-- HTTP-level result of the analyze endpoint. -/
inductive AnalyzeResult where
| httpError : Nat → String → AnalyzeResult
| success : JVal → NotebookAnalysisResult → AnalyzeResult

/-- Validation and storage tail of letta_analyze: the 422 branch, or the
response carrying the extracted payload with the validated, stored result. -/
def finishAnalysis (p : JVal) : AnalyzeResult :=
  match validateNotebookAnalysisResult p with
  | .ok r => .success p r
  | .error e => .httpError 422 ("Analysis failed validation: " ++ e)

/-- Run-id recovery from the start payload: the truthy-or chain over run_id,
id and message_id, retried inside a data sub-dict when the first chain is
falsy; a non-dict payload leaves it None. -/
def runIdCandidate (sp : JVal) : JVal :=
  match sp with
  | .obj fs =>
    let primary := pyOr (getOr fs "run_id") (pyOr (getOr fs "id") (getOr fs "message_id"))
    if primary.truthy then primary
    else
      match getField fs "data" with
      | some (.obj ds) =>
        pyOr (getOr ds "run_id") (pyOr (getOr ds "id") (getOr ds "message_id"))
      | _ => primary
  | _ => .null

/-- Embedding of the letta_analyze handler from the parsed start payload on:
inline extraction, run-id recovery (502 when no string id), the polling
fallback bounded by the absolute 1200-second deadline taken at t0, the 504
raised when the loop ends with no payload, and the final validation. -/
def lettaAnalyze (sp : JVal) (obs : Nat → Option JVal) (msgs : JVal) (t0 : Nat) :
    AnalyzeResult :=
  match extractAnalysis sp with
  | some p => finishAnalysis p
  | none =>
    match runIdCandidate sp with
    | .str _ =>
      (match (pollLoop obs msgs (t0 + 1200) t0 0).1 with
       | .completed (some p) => finishAnalysis p
       | .completed none => .httpError 504 "Letta analysis timed out"
       | .failed => .httpError 502 "Letta reported run failure"
       | .timedOut => .httpError 504 "Letta analysis timed out")
    | _ => .httpError 502 "Letta response missing run id"

/-- A minimal node used by the concrete graph examples below. -/
def mkNode (i : String) : GraphNode := ⟨i, i, .protein, false, none, none, none, none⟩

/-- A one-node graph with two dangling edges, P1 to ZZZ and A to P1. -/
def gDangling : InteractionGraph :=
  ⟨[mkNode "P1"],
   [⟨"P1", "ZZZ", "interacts", none⟩, ⟨"A", "P1", "interacts", none⟩]⟩

/-- Two nodes that share the id P1. -/
def gDup : InteractionGraph := ⟨[mkNode "P1", mkNode "P1"], []⟩

/-- A ten-node graph with distinct ids and no edges. -/
def g10 : InteractionGraph :=
  ⟨["P1", "P2", "P3", "P4", "P5", "P6", "P7", "P8", "P9", "P10"].map mkNode, []⟩

/-- An eleven-node graph with distinct ids and no edges. -/
def g11 : InteractionGraph :=
  ⟨["P1", "P2", "P3", "P4", "P5", "P6", "P7", "P8", "P9", "P10", "P11"].map mkNode, []⟩

/-- Declared field keys of TextWithSources. -/
def twsKeys : List String := ["text", "source_ids"]

/-- Declared field keys of GraphNode. -/
def nodeKeys : List String :=
  ["id", "label", "type", "isEdited", "notes", "relationship_to_edited",
   "role_summary", "source_ids"]

/-- Declared field keys of GraphEdge. -/
def edgeKeys : List String := ["source", "target", "interaction", "mechanism"]

/-- Declared field keys of InteractionGraph. -/
def graphKeys : List String := ["nodes", "edges"]

/-- Declared field keys of EditedProtein. -/
def editedKeys : List String := ["id", "label", "description", "mutations", "confidence"]

/-- Declared field keys of NotebookAnalysisResult. -/
def rootKeys : List String := ["analysis_summary", "edited_protein", "graph"]

/-- Top-level keys of a dumped JSON object. -/
def jsonKeys : JVal → List String
| .obj fs => fs.map Prod.fst
| _ => []

/-- One undeclared binding used by the extra-key witness. -/
def junkFields : List (String × JVal) := [("extra_key", .num 7)]

/-- A valid TextWithSources payload. -/
def twsFields : List (String × JVal) := [("text", .str "summary")]

/-- A valid GraphNode payload. -/
def nodeFields : List (String × JVal) :=
  [("id", .str "P1"), ("label", .str "P1"), ("type", .str "protein")]

/-- A valid GraphEdge payload. -/
def edgeFields : List (String × JVal) :=
  [("source", .str "P1"), ("target", .str "P1"), ("interaction", .str "binds")]

/-- A valid InteractionGraph payload. -/
def graphFields : List (String × JVal) :=
  [("nodes", .arr [.obj nodeFields]), ("edges", .arr [.obj edgeFields])]

/-- A valid EditedProtein payload. -/
def editedFields : List (String × JVal) := [("id", .str "P1"), ("label", .str "P1")]

/-- A valid root payload. -/
def rootFields : List (String × JVal) :=
  [("analysis_summary", .obj twsFields), ("edited_protein", .obj editedFields),
   ("graph", .obj graphFields)]

/-- A status observation that keeps the loop polling: a transient fetch or
parse failure, or a payload with no terminal state token. -/
def NonTerminalObs (o : Option JVal) : Prop :=
  match o with
  | none => True
  | some d => isCompletedState d = false ∧ isFailedState d = false

/-- An observation whose payload carries a completed-set token. -/
def CompletedObs (o : Option JVal) : Prop :=
  match o with
  | none => False
  | some d => isCompletedState d = true

/-- An observation whose payload carries a failed-set token (and therefore
no completed token; the loop checks the completed set first). -/
def FailedObs (o : Option JVal) : Prop :=
  match o with
  | none => False
  | some d => isCompletedState d = false ∧ isFailedState d = true

/-- The start payload used by the polling examples: only a run id. -/
def spPoll : JVal := .obj [("run_id", .str "run-1")]

/-- Status observations that always answer running. -/
def obsRunning : Nat → Option JVal := fun i => some (.obj [("status", .str "running")])

/-- Status observations that answer completed at once. -/
def obsCompleted : Nat → Option JVal := fun i => some (.obj [("status", .str "completed")])

/-- Status observations that answer failed at once. -/
def obsFailed : Nat → Option JVal := fun i => some (.obj [("state", .str "failed")])

/-- An assistant message whose content is a raw JSON string (an object that
is not analysis-shaped). -/
def assistantRawMsg : JVal :=
  .obj [("role", .str "assistant"), ("content", .str "\x7b\x7d")]

/-- An analysis-shaped dict placed elsewhere in the envelope. -/
def shapedDict : JVal :=
  .obj [("graph", .obj [("nodes", .arr []), ("edges", .arr [])]),
        ("analysis_summary", .str "s"), ("edited_protein", .obj [])]

/-- An envelope with the raw-string assistant message and an arbitrary value
under a sibling key. -/
def docWithExtra (d : JVal) : JVal :=
  .obj [("messages", .arr [assistantRawMsg]), ("extra", d)]

/-- C2: on a candidate graph whose other invariants hold, any edge with an
unknown source or target id causes rejection, and the error joins every
offending edge (in edge order) named by its endpoints as source->target. -/
theorem validate_graph_reports_all_dangling (g : InteractionGraph)
    (hcount : g.nodes.length ≤ 10)
    (hnodup : (g.nodes.map GraphNode.id).Nodup)
    (hd : g.danglingEdges ≠ []) :
    g.validate_graph = .error ("Edges reference unknown nodes: "
      ++ String.intercalate ", " (g.danglingEdges.map (fun p => p.1 ++ "->" ++ p.2))) := by
  have h1 : ¬ ((g.nodes.map GraphNode.id).length > 10) := by
    rw [List.length_map]; omega
  have h3 : ¬ g.danglingEdges.isEmpty := by
    cases hdl : g.danglingEdges with
    | nil => exact absurd hdl hd
    | cons a l => simp [List.isEmpty]
  simp only [InteractionGraph.validate_graph]
  rw [if_neg h1, if_neg (not_not_intro hnodup), if_pos h3]

/-- C2 witness: both offending edges are reported by their endpoints. -/
theorem validate_graph_reports_all_dangling_witness :
    gDangling.validate_graph = .error "Edges reference unknown nodes: P1->ZZZ, A->P1" :=
  validate_graph_reports_all_dangling gDangling (by decide) (by decide) (by decide)

/-- C8 (amended): two nodes sharing an id cause rejection, with the fixed
generic uniqueness message (the duplicate id is not named in the error). -/
theorem validate_graph_dup_rejected (g : InteractionGraph)
    (hcount : g.nodes.length ≤ 10)
    (hdup : ¬ (g.nodes.map GraphNode.id).Nodup) :
    g.validate_graph = .error "Graph nodes must have unique ids" := by
  have h1 : ¬ ((g.nodes.map GraphNode.id).length > 10) := by
    rw [List.length_map]; omega
  simp only [InteractionGraph.validate_graph]
  rw [if_neg h1, if_pos hdup]

/-- C8 counterexample: the duplicate-id graph is rejected, but the error is
the fixed message, which does not contain the duplicate id P1 anywhere. -/
theorem validate_graph_dup_error_not_named :
    gDup.validate_graph = .error "Graph nodes must have unique ids"
    ∧ ¬ ("P1".data <:+: "Graph nodes must have unique ids".data) := by
  refine ⟨rfl, by decide⟩

/-- C8 amended-claim witness: the rejection at the concrete duplicate pair. -/
theorem validate_graph_dup_rejected_witness :
    gDup.validate_graph = .error "Graph nodes must have unique ids" :=
  validate_graph_dup_rejected gDup (by decide) (by decide)

/-- C9: the node-count limit is 10 inclusive: a 10-node graph whose other
invariants hold validates and is returned unchanged, while an 11-node graph
is rejected with the count-violation message (checked before anything else). -/
theorem validate_graph_count_limit :
    (∀ g : InteractionGraph, g.nodes.length = 10 →
        (g.nodes.map GraphNode.id).Nodup → g.danglingEdges = [] →
        g.validate_graph = .ok g)
    ∧ (∀ g : InteractionGraph, g.nodes.length = 11 →
        g.validate_graph = .error "Graph cannot contain more than 10 nodes") := by
  constructor
  · intro g hlen hnodup hd
    have h1 : ¬ ((g.nodes.map GraphNode.id).length > 10) := by
      rw [List.length_map]; omega
    have h2 : g.danglingEdges.isEmpty := by rw [hd]; rfl
    simp only [InteractionGraph.validate_graph]
    rw [if_neg h1, if_neg (not_not_intro hnodup), if_neg (not_not_intro h2)]
  · intro g hlen
    have h1 : (g.nodes.map GraphNode.id).length > 10 := by
      rw [List.length_map]; omega
    simp only [InteractionGraph.validate_graph]
    rw [if_pos h1]

/-- C9 witness: ten nodes validate, eleven are rejected with the count
message. -/
theorem validate_graph_count_limit_witness :
    g10.validate_graph = .ok g10
    ∧ g11.validate_graph = .error "Graph cannot contain more than 10 nodes" :=
  ⟨validate_graph_count_limit.1 g10 (by decide) (by decide) (by decide),
   validate_graph_count_limit.2 g11 (by decide)⟩

/-- C3: the latest-result slot answers NotFound exactly when no successful
write has ever happened; after any store sequence ending with result r the
read returns the dump of r alone — last writer wins and the single slot
keeps no history. -/
theorem getAnalysisResult_last_writer_wins :
    getAnalysisResult (runStores []) = .error (404, "No analysis available")
    ∧ runStores [] = none
    ∧ (∀ rs r, runStores (rs ++ [r]) = some r)
    ∧ (∀ rs r, getAnalysisResult (runStores (rs ++ [r]))
        = .ok r.model_dump) := by
  refine ⟨rfl, rfl, ?_, ?_⟩
  · intro rs r
    simp [runStores, List.foldl_append, storeAnalysisResult]
  · intro rs r
    simp [runStores, List.foldl_append, storeAnalysisResult, getAnalysisResult]

/-- C7: AnnotatedText coercion is idempotent: re-coercing any successful
coercion output returns that output unchanged. -/
theorem coerceAnnotatedText_idempotent (x : CoerceInput) (y : Option TextWithSources)
    (h : coerceAnnotatedText x = .ok y) :
    coerceAnnotatedText (reinject y) = .ok y := by
  cases x with
  | tws t =>
    simp only [coerceAnnotatedText] at h
    injection h with h2
    subst h2
    rfl
  | jv v =>
    cases v with
    | null =>
      simp only [coerceAnnotatedText] at h
      injection h with h2
      subst h2
      rfl
    | str s =>
      simp only [coerceAnnotatedText] at h
      cases hv : validateTextWithSources (.obj [("text", .str s)]) with
      | ok t =>
        rw [hv] at h
        simp only [Except.map] at h
        injection h with h2
        subst h2
        rfl
      | error e =>
        rw [hv] at h
        simp only [Except.map] at h
        exact Except.noConfusion h
    | obj fs =>
      simp only [coerceAnnotatedText] at h
      cases hv : validateTextWithSources (.obj fs) with
      | ok t =>
        rw [hv] at h
        simp only [Except.map] at h
        injection h with h2
        subst h2
        rfl
      | error e =>
        rw [hv] at h
        simp only [Except.map] at h
        exact Except.noConfusion h
    | bool b =>
      simp only [coerceAnnotatedText] at h
      exact Except.noConfusion h
    | num q =>
      simp only [coerceAnnotatedText] at h
      exact Except.noConfusion h
    | arr xs =>
      simp only [coerceAnnotatedText] at h
      exact Except.noConfusion h

/-- C7 witness: coercing a bare string and re-coercing the produced value. -/
theorem coerceAnnotatedText_idempotent_witness :
    coerceAnnotatedText (.jv (.str "hi")) = .ok (some ⟨"hi", none⟩)
    ∧ coerceAnnotatedText (reinject (some ⟨"hi", none⟩)) = .ok (some ⟨"hi", none⟩) :=
  ⟨by rfl, coerceAnnotatedText_idempotent (.jv (.str "hi")) (some ⟨"hi", none⟩) (by rfl)⟩

/-- Lookup is unaffected by appended bindings whose keys all differ from k. -/
theorem getField_append_junk (fs junk : List (String × JVal)) (k : String)
    (h : ∀ p ∈ junk, p.1 ≠ k) :
    getField (fs ++ junk) k = getField fs k := by
  unfold getField
  rw [List.find?_append]
  have hj : junk.find? (fun p => p.1 == k) = none := by
    rw [List.find?_eq_none]
    intro p hp
    simpa using h p hp
  rw [hj]
  cases fs.find? (fun p => p.1 == k) <;> rfl

/-- Required-string lookup is likewise unaffected. -/
theorem reqStr_append_junk (fs junk : List (String × JVal)) (k : String)
    (h : ∀ p ∈ junk, p.1 ≠ k) :
    reqStr (fs ++ junk) k = reqStr fs k := by
  unfold reqStr
  rw [getField_append_junk fs junk k h]

/-- Optional-string lookup is likewise unaffected. -/
theorem optStr_append_junk (fs junk : List (String × JVal)) (k : String)
    (h : ∀ p ∈ junk, p.1 ≠ k) :
    optStr (fs ++ junk) k = optStr fs k := by
  unfold optStr
  rw [getField_append_junk fs junk k h]

/-- A binding avoiding a whole key set avoids each of its members. -/
theorem junk_ne_of_not_mem {junk : List (String × JVal)} {keys : List String}
    (h : ∀ p ∈ junk, p.1 ∉ keys) {k : String} (hk : k ∈ keys) :
    ∀ p ∈ junk, p.1 ≠ k :=
  fun p hp he => h p hp (he ▸ hk)

/-- TextWithSources validation ignores undeclared keys. -/
theorem validateTextWithSources_ignores_extra (fs junk : List (String × JVal))
    (h : ∀ p ∈ junk, p.1 ∉ twsKeys) :
    validateTextWithSources (.obj (fs ++ junk)) = validateTextWithSources (.obj fs) := by
  simp only [validateTextWithSources]
  rw [reqStr_append_junk fs junk "text" (junk_ne_of_not_mem h (by simp [twsKeys])),
      getField_append_junk fs junk "source_ids" (junk_ne_of_not_mem h (by simp [twsKeys]))]

/-- GraphNode validation ignores undeclared keys. -/
theorem validateGraphNode_ignores_extra (fs junk : List (String × JVal))
    (h : ∀ p ∈ junk, p.1 ∉ nodeKeys) :
    validateGraphNode (.obj (fs ++ junk)) = validateGraphNode (.obj fs) := by
  simp only [validateGraphNode]
  rw [reqStr_append_junk fs junk "id" (junk_ne_of_not_mem h (by simp [nodeKeys])),
      reqStr_append_junk fs junk "label" (junk_ne_of_not_mem h (by simp [nodeKeys])),
      getField_append_junk fs junk "type" (junk_ne_of_not_mem h (by simp [nodeKeys])),
      getField_append_junk fs junk "isEdited" (junk_ne_of_not_mem h (by simp [nodeKeys])),
      getField_append_junk fs junk "notes" (junk_ne_of_not_mem h (by simp [nodeKeys])),
      getField_append_junk fs junk "relationship_to_edited"
        (junk_ne_of_not_mem h (by simp [nodeKeys])),
      getField_append_junk fs junk "role_summary" (junk_ne_of_not_mem h (by simp [nodeKeys])),
      getField_append_junk fs junk "source_ids" (junk_ne_of_not_mem h (by simp [nodeKeys]))]

/-- GraphEdge validation ignores undeclared keys. -/
theorem validateGraphEdge_ignores_extra (fs junk : List (String × JVal))
    (h : ∀ p ∈ junk, p.1 ∉ edgeKeys) :
    validateGraphEdge (.obj (fs ++ junk)) = validateGraphEdge (.obj fs) := by
  simp only [validateGraphEdge]
  rw [reqStr_append_junk fs junk "source" (junk_ne_of_not_mem h (by simp [edgeKeys])),
      reqStr_append_junk fs junk "target" (junk_ne_of_not_mem h (by simp [edgeKeys])),
      reqStr_append_junk fs junk "interaction" (junk_ne_of_not_mem h (by simp [edgeKeys])),
      optStr_append_junk fs junk "mechanism" (junk_ne_of_not_mem h (by simp [edgeKeys]))]

/-- InteractionGraph validation ignores undeclared keys. -/
theorem validateInteractionGraph_ignores_extra (fs junk : List (String × JVal))
    (h : ∀ p ∈ junk, p.1 ∉ graphKeys) :
    validateInteractionGraph (.obj (fs ++ junk)) = validateInteractionGraph (.obj fs) := by
  simp only [validateInteractionGraph]
  rw [getField_append_junk fs junk "nodes" (junk_ne_of_not_mem h (by simp [graphKeys])),
      getField_append_junk fs junk "edges" (junk_ne_of_not_mem h (by simp [graphKeys]))]

/-- EditedProtein validation ignores undeclared keys. -/
theorem validateEditedProtein_ignores_extra (fs junk : List (String × JVal))
    (h : ∀ p ∈ junk, p.1 ∉ editedKeys) :
    validateEditedProtein (.obj (fs ++ junk)) = validateEditedProtein (.obj fs) := by
  simp only [validateEditedProtein]
  rw [reqStr_append_junk fs junk "id" (junk_ne_of_not_mem h (by simp [editedKeys])),
      reqStr_append_junk fs junk "label" (junk_ne_of_not_mem h (by simp [editedKeys])),
      getField_append_junk fs junk "description" (junk_ne_of_not_mem h (by simp [editedKeys])),
      getField_append_junk fs junk "mutations" (junk_ne_of_not_mem h (by simp [editedKeys])),
      getField_append_junk fs junk "confidence" (junk_ne_of_not_mem h (by simp [editedKeys]))]

/-- Root validation ignores undeclared keys. -/
theorem validateNotebookAnalysisResult_ignores_extra (fs junk : List (String × JVal))
    (h : ∀ p ∈ junk, p.1 ∉ rootKeys) :
    validateNotebookAnalysisResult (.obj (fs ++ junk))
      = validateNotebookAnalysisResult (.obj fs) := by
  simp only [validateNotebookAnalysisResult]
  rw [getField_append_junk fs junk "analysis_summary"
        (junk_ne_of_not_mem h (by simp [rootKeys])),
      getField_append_junk fs junk "edited_protein" (junk_ne_of_not_mem h (by simp [rootKeys])),
      getField_append_junk fs junk "graph" (junk_ne_of_not_mem h (by simp [rootKeys]))]

/-- C10: schema validation ignores unknown keys at every level — appending
bindings with undeclared keys to the root, a node, an edge, the graph, the
edited-protein object, or an annotated-text object never changes the
validation outcome — and a constructed result dumps exactly the declared
keys at each level, so the extra keys are absent from it. -/
theorem schema_ignores_extra_keys :
    (∀ fs junk, (∀ p ∈ junk, p.1 ∉ rootKeys) →
      validateNotebookAnalysisResult (.obj (fs ++ junk))
        = validateNotebookAnalysisResult (.obj fs))
    ∧ (∀ fs junk, (∀ p ∈ junk, p.1 ∉ nodeKeys) →
      validateGraphNode (.obj (fs ++ junk)) = validateGraphNode (.obj fs))
    ∧ (∀ fs junk, (∀ p ∈ junk, p.1 ∉ edgeKeys) →
      validateGraphEdge (.obj (fs ++ junk)) = validateGraphEdge (.obj fs))
    ∧ (∀ fs junk, (∀ p ∈ junk, p.1 ∉ graphKeys) →
      validateInteractionGraph (.obj (fs ++ junk)) = validateInteractionGraph (.obj fs))
    ∧ (∀ fs junk, (∀ p ∈ junk, p.1 ∉ editedKeys) →
      validateEditedProtein (.obj (fs ++ junk)) = validateEditedProtein (.obj fs))
    ∧ (∀ fs junk, (∀ p ∈ junk, p.1 ∉ twsKeys) →
      validateTextWithSources (.obj (fs ++ junk)) = validateTextWithSources (.obj fs))
    ∧ (∀ r : NotebookAnalysisResult, jsonKeys r.model_dump = rootKeys)
    ∧ (∀ n : GraphNode, jsonKeys n.model_dump = nodeKeys)
    ∧ (∀ e : GraphEdge, jsonKeys e.model_dump = edgeKeys)
    ∧ (∀ g : InteractionGraph, jsonKeys g.model_dump = graphKeys)
    ∧ (∀ p : EditedProtein, jsonKeys p.model_dump = editedKeys)
    ∧ (∀ t : TextWithSources, jsonKeys t.model_dump = twsKeys) :=
  ⟨validateNotebookAnalysisResult_ignores_extra,
   validateGraphNode_ignores_extra,
   validateGraphEdge_ignores_extra,
   validateInteractionGraph_ignores_extra,
   validateEditedProtein_ignores_extra,
   validateTextWithSources_ignores_extra,
   fun r => rfl, fun n => rfl, fun e => rfl, fun g => rfl, fun p => rfl, fun t => rfl⟩

/-- C10 witness: appending the undeclared binding at each level leaves every
validation outcome unchanged, on payloads whose required fields are valid. -/
theorem schema_ignores_extra_keys_witness :
    validateNotebookAnalysisResult (.obj (rootFields ++ junkFields))
      = validateNotebookAnalysisResult (.obj rootFields)
    ∧ validateGraphNode (.obj (nodeFields ++ junkFields)) = validateGraphNode (.obj nodeFields)
    ∧ validateGraphEdge (.obj (edgeFields ++ junkFields)) = validateGraphEdge (.obj edgeFields)
    ∧ validateInteractionGraph (.obj (graphFields ++ junkFields))
      = validateInteractionGraph (.obj graphFields)
    ∧ validateEditedProtein (.obj (editedFields ++ junkFields))
      = validateEditedProtein (.obj editedFields)
    ∧ validateTextWithSources (.obj (twsFields ++ junkFields))
      = validateTextWithSources (.obj twsFields)
    ∧ validateNotebookAnalysisResult (.obj rootFields)
      = .ok ⟨⟨"summary", none⟩, ⟨"P1", "P1", none, [], none⟩,
             ⟨[mkNode "P1"], [⟨"P1", "P1", "binds", none⟩]⟩⟩ :=
  ⟨schema_ignores_extra_keys.1 rootFields junkFields (by decide),
   schema_ignores_extra_keys.2.1 nodeFields junkFields (by decide),
   schema_ignores_extra_keys.2.2.1 edgeFields junkFields (by decide),
   schema_ignores_extra_keys.2.2.2.1 graphFields junkFields (by decide),
   schema_ignores_extra_keys.2.2.2.2.1 editedFields junkFields (by decide),
   schema_ignores_extra_keys.2.2.2.2.2.1 twsFields junkFields (by decide),
   by rfl⟩

/-- The fuel-indexed loop with only non-terminal observations always times
out, whatever the fuel. -/
theorem pollLoopAux_timedOut (obs : Nat → Option JVal) (msgs : JVal)
    (deadline : Nat) (h : ∀ i, NonTerminalObs (obs i)) :
    ∀ fuel now i, pollLoopAux obs msgs deadline fuel now i = (.timedOut, 0) := by
  intro fuel
  induction fuel with
  | zero => intro now i; rfl
  | succ n ih =>
    intro now i
    unfold pollLoopAux
    by_cases hlt : now < deadline
    · rw [if_pos hlt]
      cases ho : obs i with
      | none => exact ih (now + 3) (i + 1)
      | some d =>
        have hnt := h i
        rw [ho] at hnt
        simp only [NonTerminalObs] at hnt
        simp only [hnt.1, hnt.2, Bool.false_eq_true, if_false]
        exact ih (now + 3) (i + 1)
    · rw [if_neg hlt]

/-- A loop seeing only non-terminal observations runs to the deadline and
times out, never fetching the run messages. -/
theorem pollLoop_timedOut_of_nonTerminal (obs : Nat → Option JVal) (msgs : JVal)
    (deadline : Nat) (h : ∀ i, NonTerminalObs (obs i)) :
    ∀ now i, pollLoop obs msgs deadline now i = (.timedOut, 0) := fun now i =>
  pollLoopAux_timedOut obs msgs deadline h (deadline - now) now i

/-- The fuel-indexed loop whose first terminal observation, k steps in, is a
completed token stops there with one message fetch, given enough fuel. -/
theorem pollLoopAux_completed_at (obs : Nat → Option JVal) (msgs : JVal) (deadline : Nat) :
    ∀ k fuel now i, (∀ j, j < k → NonTerminalObs (obs (i + j))) →
      CompletedObs (obs (i + k)) → now + 3 * k < deadline → k < fuel →
      pollLoopAux obs msgs deadline fuel now i
        = (.completed (extractAnalysis msgs), 1) := by
  intro k
  induction k with
  | zero =>
    intro fuel now i hpre hk hdl hf
    cases fuel with
    | zero => omega
    | succ f =>
      have hlt : now < deadline := by omega
      unfold pollLoopAux
      rw [if_pos hlt]
      cases ho : obs i with
      | none =>
        rw [show i + 0 = i from rfl, ho] at hk
        simp only [CompletedObs] at hk
      | some d =>
        rw [show i + 0 = i from rfl, ho] at hk
        simp only [CompletedObs] at hk
        simp only [hk, if_true]
  | succ n ih =>
    intro fuel now i hpre hk hdl hf
    cases fuel with
    | zero => omega
    | succ f =>
      have hlt : now < deadline := by omega
      unfold pollLoopAux
      rw [if_pos hlt]
      have h0 := hpre 0 (by omega)
      rw [show i + 0 = i from rfl] at h0
      cases ho : obs i with
      | none =>
        apply ih f (now + 3) (i + 1)
        · intro j hj
          have hx := hpre (j + 1) (by omega)
          have heq : i + (j + 1) = i + 1 + j := by omega
          rw [heq] at hx
          exact hx
        · have heq : i + (n + 1) = i + 1 + n := by omega
          rw [heq] at hk
          exact hk
        · omega
        · omega
      | some d =>
        rw [ho] at h0
        simp only [NonTerminalObs] at h0
        simp only [h0.1, h0.2, Bool.false_eq_true, if_false]
        apply ih f (now + 3) (i + 1)
        · intro j hj
          have hx := hpre (j + 1) (by omega)
          have heq : i + (j + 1) = i + 1 + j := by omega
          rw [heq] at hx
          exact hx
        · have heq : i + (n + 1) = i + 1 + n := by omega
          rw [heq] at hk
          exact hk
        · omega
        · omega

/-- A loop whose first terminal observation, k steps in, is a completed
token stops there, fetches the run messages once, and returns their
extraction. -/
theorem pollLoop_completed_at (obs : Nat → Option JVal) (msgs : JVal) (deadline : Nat) :
    ∀ k now i, (∀ j, j < k → NonTerminalObs (obs (i + j))) →
      CompletedObs (obs (i + k)) → now + 3 * k < deadline →
      pollLoop obs msgs deadline now i = (.completed (extractAnalysis msgs), 1) := by
  intro k now i hpre hk hdl
  exact pollLoopAux_completed_at obs msgs deadline k (deadline - now) now i hpre hk hdl
    (by omega)

/-- The fuel-indexed loop whose first terminal observation, k steps in, is a
failed token stops there with zero message fetches, given enough fuel. -/
theorem pollLoopAux_failed_at (obs : Nat → Option JVal) (msgs : JVal) (deadline : Nat) :
    ∀ k fuel now i, (∀ j, j < k → NonTerminalObs (obs (i + j))) →
      FailedObs (obs (i + k)) → now + 3 * k < deadline → k < fuel →
      pollLoopAux obs msgs deadline fuel now i = (.failed, 0) := by
  intro k
  induction k with
  | zero =>
    intro fuel now i hpre hk hdl hf
    cases fuel with
    | zero => omega
    | succ f =>
      have hlt : now < deadline := by omega
      unfold pollLoopAux
      rw [if_pos hlt]
      cases ho : obs i with
      | none =>
        rw [show i + 0 = i from rfl, ho] at hk
        simp only [FailedObs] at hk
      | some d =>
        rw [show i + 0 = i from rfl, ho] at hk
        simp only [FailedObs] at hk
        simp only [hk.1, hk.2, Bool.false_eq_true, if_false, if_true]
  | succ n ih =>
    intro fuel now i hpre hk hdl hf
    cases fuel with
    | zero => omega
    | succ f =>
      have hlt : now < deadline := by omega
      unfold pollLoopAux
      rw [if_pos hlt]
      have h0 := hpre 0 (by omega)
      rw [show i + 0 = i from rfl] at h0
      cases ho : obs i with
      | none =>
        apply ih f (now + 3) (i + 1)
        · intro j hj
          have hx := hpre (j + 1) (by omega)
          have heq : i + (j + 1) = i + 1 + j := by omega
          rw [heq] at hx
          exact hx
        · have heq : i + (n + 1) = i + 1 + n := by omega
          rw [heq] at hk
          exact hk
        · omega
        · omega
      | some d =>
        rw [ho] at h0
        simp only [NonTerminalObs] at h0
        simp only [h0.1, h0.2, Bool.false_eq_true, if_false]
        apply ih f (now + 3) (i + 1)
        · intro j hj
          have hx := hpre (j + 1) (by omega)
          have heq : i + (j + 1) = i + 1 + j := by omega
          rw [heq] at hx
          exact hx
        · have heq : i + (n + 1) = i + 1 + n := by omega
          rw [heq] at hk
          exact hk
        · omega
        · omega

/-- A loop whose first terminal observation, k steps in, is a failed token
stops there with the run-failed outcome and zero message fetches. -/
theorem pollLoop_failed_at (obs : Nat → Option JVal) (msgs : JVal) (deadline : Nat) :
    ∀ k now i, (∀ j, j < k → NonTerminalObs (obs (i + j))) →
      FailedObs (obs (i + k)) → now + 3 * k < deadline →
      pollLoop obs msgs deadline now i = (.failed, 0) := by
  intro k now i hpre hk hdl
  exact pollLoopAux_failed_at obs msgs deadline k (deadline - now) now i hpre hk hdl
    (by omega)

/-- C4: when every status observation is non-terminal, the polling loop ends
exactly by exceeding the absolute deadline (1200 seconds after its start)
and the endpoint reports the 504 timeout, regardless of the last token. -/
theorem lettaAnalyze_timeout (sp : JVal) (obs : Nat → Option JVal) (msgs : JVal) (t0 : Nat)
    (hinline : extractAnalysis sp = none)
    (hrid : ∃ r, runIdCandidate sp = .str r)
    (hobs : ∀ i, NonTerminalObs (obs i)) :
    lettaAnalyze sp obs msgs t0 = .httpError 504 "Letta analysis timed out" := by
  obtain ⟨r, hr⟩ := hrid
  unfold lettaAnalyze
  rw [hinline, hr, pollLoop_timedOut_of_nonTerminal obs msgs (t0 + 1200) hobs t0 0]

/-- C4 witness: an all-running run times out with the 504 error. -/
theorem lettaAnalyze_timeout_witness :
    lettaAnalyze spPoll obsRunning .null 0 = .httpError 504 "Letta analysis timed out" :=
  lettaAnalyze_timeout spPoll obsRunning .null 0 (by rfl) ⟨"run-1", by rfl⟩
    (fun i => ⟨rfl, rfl⟩)

/-- C5: once the first terminal status token is in the failed set, the loop
stops with the run-failed outcome and zero message fetches — the
run-messages endpoint is never called — and the endpoint reports the 502
run-failure error. -/
theorem lettaAnalyze_run_failed (sp : JVal) (obs : Nat → Option JVal) (msgs : JVal)
    (t0 k : Nat)
    (hinline : extractAnalysis sp = none)
    (hrid : ∃ r, runIdCandidate sp = .str r)
    (hpre : ∀ j, j < k → NonTerminalObs (obs j))
    (hk : FailedObs (obs k))
    (hdl : 3 * k < 1200) :
    pollLoop obs msgs (t0 + 1200) t0 0 = (.failed, 0)
    ∧ lettaAnalyze sp obs msgs t0 = .httpError 502 "Letta reported run failure" := by
  have hp : pollLoop obs msgs (t0 + 1200) t0 0 = (.failed, 0) := by
    apply pollLoop_failed_at obs msgs (t0 + 1200) k t0 0
    · intro j hj
      rw [show (0 : Nat) + j = j from by omega]
      exact hpre j hj
    · rw [show (0 : Nat) + k = k from by omega]
      exact hk
    · omega
  refine ⟨hp, ?_⟩
  obtain ⟨r, hr⟩ := hrid
  unfold lettaAnalyze
  rw [hinline, hr, hp]

/-- C5 witness: a first status of failed yields the run-failure error with
no message fetch. -/
theorem lettaAnalyze_run_failed_witness :
    pollLoop obsFailed .null (0 + 1200) 0 0 = (.failed, 0)
    ∧ lettaAnalyze spPoll obsFailed .null 0 = .httpError 502 "Letta reported run failure" :=
  lettaAnalyze_run_failed spPoll obsFailed .null 0 0 (by rfl) ⟨"run-1", by rfl⟩
    (fun j hj => absurd hj (Nat.not_lt_zero j)) ⟨rfl, rfl⟩ (by omega)

/-- C1 (amended): on a run whose first terminal status is completed but
whose fetched messages yield no analysis payload through any strategy, the
endpoint reports the very same 504 timeout error the deadline path uses —
the code has no distinct no-analysis error. -/
theorem lettaAnalyze_completed_no_candidate (sp : JVal) (obs : Nat → Option JVal)
    (msgs : JVal) (t0 k : Nat)
    (hinline : extractAnalysis sp = none)
    (hrid : ∃ r, runIdCandidate sp = .str r)
    (hpre : ∀ j, j < k → NonTerminalObs (obs j))
    (hk : CompletedObs (obs k))
    (hdl : 3 * k < 1200)
    (hnone : extractAnalysis msgs = none) :
    lettaAnalyze sp obs msgs t0 = .httpError 504 "Letta analysis timed out" := by
  have hp : pollLoop obs msgs (t0 + 1200) t0 0
      = (.completed (extractAnalysis msgs), 1) := by
    apply pollLoop_completed_at obs msgs (t0 + 1200) k t0 0
    · intro j hj
      rw [show (0 : Nat) + j = j from by omega]
      exact hpre j hj
    · rw [show (0 : Nat) + k = k from by omega]
      exact hk
    · omega
  obtain ⟨r, hr⟩ := hrid
  unfold lettaAnalyze
  rw [hinline, hr, hp, hnone]

/-- C1 amended-claim witness: an immediately completed run whose messages
envelope is empty is reported with the 504 timeout error. -/
theorem lettaAnalyze_completed_no_candidate_witness :
    lettaAnalyze spPoll obsCompleted (.obj []) 0
      = .httpError 504 "Letta analysis timed out" :=
  lettaAnalyze_completed_no_candidate spPoll obsCompleted (.obj []) 0 0 (by rfl)
    ⟨"run-1", by rfl⟩ (fun j hj => absurd hj (Nat.not_lt_zero j)) rfl (by omega) (by rfl)

/-- C1 counterexample: the immediately completed run with no extractable
analysis and the all-running timed-out run are reported with the identical
504 error, so there is no distinct no-analysis error to surface. -/
theorem lettaAnalyze_no_analysis_error_is_timeout_error :
    lettaAnalyze spPoll obsCompleted (.obj []) 0 = .httpError 504 "Letta analysis timed out"
    ∧ lettaAnalyze spPoll obsRunning (.obj []) 0
      = .httpError 504 "Letta analysis timed out" := by
  constructor
  · have hp : pollLoop obsCompleted (.obj []) (0 + 1200) 0 0
        = (.completed (extractAnalysis (.obj [])), 1) := by
      apply pollLoop_completed_at obsCompleted (.obj []) (0 + 1200) 0 0 0
      · intro j hj
        exact absurd hj (Nat.not_lt_zero j)
      · exact rfl
      · omega
    unfold lettaAnalyze
    rw [show extractAnalysis spPoll = none from rfl,
        show runIdCandidate spPoll = .str "run-1" from rfl, hp,
        show extractAnalysis (.obj ([] : List (String × JVal))) = none from rfl]
  · have hp := pollLoop_timedOut_of_nonTerminal obsRunning (.obj []) (0 + 1200)
      (fun i => ⟨rfl, rfl⟩) 0 0
    unfold lettaAnalyze
    rw [show extractAnalysis spPoll = none from rfl,
        show runIdCandidate spPoll = .str "run-1" from rfl, hp]

/-- C6 counterexample: the walk returns the parsed raw assistant content even
though an analysis-shaped dict sits elsewhere in the document — the generic
fallback (which would have found that shaped dict) did not run first, so the
claimed strategy order (fallback before the assistant-text parse) is wrong. -/
theorem extract_raw_parse_before_fallback_cex :
    extractJsonFromMessages (docWithExtra shapedDict) = some (.obj [])
    ∧ findAnalysisLikeDict (docWithExtra shapedDict) = some shapedDict
    ∧ isAnalysisLike shapedDict = true
    ∧ isAnalysisLike (.obj []) = false
    ∧ (JVal.obj []) ≠ shapedDict :=
  ⟨by rfl, by rfl, by rfl, by rfl, by decide⟩

/-- C6 (amended): the extractor runs the raw assistant-text JSON parse as the
final per-message step of the targeted walk, before the generic recursive
fallback ever runs: whatever value — however analysis-shaped — sits beside
the messages, the walk returns the parsed raw content, and that parsed
object is used with no shape re-check (it fails the shape predicate). -/
theorem extract_raw_parse_inside_walk :
    (∀ d : JVal, extractJsonFromMessages (docWithExtra d) = some (.obj []))
    ∧ isAnalysisLike (.obj []) = false :=
  ⟨fun d => rfl, rfl⟩
